import Mathlib

/-!
Verification of the `god_like` package (a thin, express-style facade over a
Flask/werkzeug server).  The development shallowly embeds the three source
modules — `god_like/response.py`, `god_like/request.py`, `god_like/godlike.py` —
together with the pieces of the Python standard library (`json.dumps`,
`mimetypes.types_map`, `http.HTTPStatus`, `pathlib` suffix extraction) and of
werkzeug (`get_host`, `MIMEAccept` membership, the `Headers` mapping) that the
facade delegates to.  Machine-level details that no property here depends on
(byte-level body buffers, float JSON values, non-POSIX paths) are out of scope
and noted where relevant.
-/

namespace GodLike

/-! ### Python `json.dumps` (default options, `ensure_ascii=True`)

`Response.json` and `Response.send` serialize their argument with
`json.dumps(obj)`.  The argument type annotated in the source is
`Union[dict, list, tuple, int, float, bool]`; `JValue` covers these
(tuples serialize exactly like lists; floats are omitted — no claim
involves them), plus string values, which appear as dictionary keys. -/

inductive JValue where
  | str : String → JValue
  | int : Int → JValue
  | bool : Bool → JValue
  | arr : List JValue → JValue
  | obj : List (String × JValue) → JValue
deriving Repr

/-- Lower-case hex digit, as Python produces in `\uXXXX` escapes. -/
def hexDigit (n : Nat) : Char :=
  if n < 10 then Char.ofNat (48 + n) else Char.ofNat (87 + n)

/-- Four lower-case hex digits of `n % 65536`. -/
def hex4 (n : Nat) : String :=
  String.mk [hexDigit (n / 4096 % 16), hexDigit (n / 256 % 16),
             hexDigit (n / 16 % 16), hexDigit (n % 16)]

/-- One character of a JSON string literal under `json.dumps` defaults:
the two-character escapes for quote, backslash and the usual control
characters, `\uXXXX` (with surrogate pairs above the BMP) for the other
control characters and for all non-ASCII characters (`ensure_ascii=True`). -/
def escapeJsonChar (c : Char) : String :=
  if c = Char.ofNat 34 then "\\\""
  else if c = Char.ofNat 92 then "\\\\"
  else if c = Char.ofNat 10 then "\\n"
  else if c = Char.ofNat 13 then "\\r"
  else if c = Char.ofNat 9 then "\\t"
  else if c.val = 8 then "\\b"
  else if c.val = 12 then "\\f"
  else if c.val < 32 then "\\u" ++ hex4 c.val.toNat
  else if c.val > 126 then
    if c.val ≤ 65535 then "\\u" ++ hex4 c.val.toNat
    else
      let v := c.val.toNat - 65536
      "\\u" ++ hex4 (55296 + v / 1024) ++ "\\u" ++ hex4 (56320 + v % 1024)
  else String.singleton c

/-- A JSON string literal for `s`, as `json.dumps` renders it. -/
def dumpJsonString (s : String) : String :=
  "\"" ++ String.join (s.toList.map escapeJsonChar) ++ "\""

mutual
/-- Python `json.dumps(obj)` with default options: item separator `", "`,
key separator `": "` (so a one-entry dict renders as `\x7b"k": v\x7d`). -/
def dumps : JValue → String
  | .str s => dumpJsonString s
  | .int n => toString n
  | .bool b => if b then "true" else "false"
  | .arr xs => "[" ++ dumpsList xs ++ "]"
  | .obj kvs => "\x7b" ++ dumpsObj kvs ++ "\x7d"

/-- Array elements joined with `", "`. -/
def dumpsList : List JValue → String
  | [] => ""
  | [x] => dumps x
  | x :: y :: xs => dumps x ++ ", " ++ dumpsList (y :: xs)

/-- Dictionary entries `key: value` joined with `", "`. -/
def dumpsObj : List (String × JValue) → String
  | [] => ""
  | [kv] => dumpJsonString kv.1 ++ ": " ++ dumps kv.2
  | kv :: kw :: kvs => dumpJsonString kv.1 ++ ": " ++ dumps kv.2 ++ ", " ++ dumpsObj (kw :: kvs)
end

/-! ### `mimetypes.types_map` and `http.HTTPStatus`

`Response.content_type`, `Response.send_file` and `Request.accepts` consult
`mimetypes.types_map`; `Response.send_status` consults `http.HTTPStatus`.
`types_map` below is CPython 3.11's built-in default table
(`mimetypes._types_map_default`) verbatim.  At runtime `mimetypes.init` may
merge entries read from system files such as `/etc/mime.types`, but every key
it adds is also of the form `"." ++ ext` (`add_type` prepends the dot), so the
key facts used below — keys always start with a dot, and `".json"` maps to
`"application/json"` — are platform-independent. -/

def types_map : List (String × String) := [
    (".js", "application/javascript"),
    (".mjs", "application/javascript"),
    (".json", "application/json"),
    (".webmanifest", "application/manifest+json"),
    (".doc", "application/msword"),
    (".dot", "application/msword"),
    (".wiz", "application/msword"),
    (".nq", "application/n-quads"),
    (".nt", "application/n-triples"),
    (".bin", "application/octet-stream"),
    (".a", "application/octet-stream"),
    (".dll", "application/octet-stream"),
    (".exe", "application/octet-stream"),
    (".o", "application/octet-stream"),
    (".obj", "application/octet-stream"),
    (".so", "application/octet-stream"),
    (".oda", "application/oda"),
    (".pdf", "application/pdf"),
    (".p7c", "application/pkcs7-mime"),
    (".ps", "application/postscript"),
    (".ai", "application/postscript"),
    (".eps", "application/postscript"),
    (".trig", "application/trig"),
    (".m3u", "application/vnd.apple.mpegurl"),
    (".m3u8", "application/vnd.apple.mpegurl"),
    (".xls", "application/vnd.ms-excel"),
    (".xlb", "application/vnd.ms-excel"),
    (".ppt", "application/vnd.ms-powerpoint"),
    (".pot", "application/vnd.ms-powerpoint"),
    (".ppa", "application/vnd.ms-powerpoint"),
    (".pps", "application/vnd.ms-powerpoint"),
    (".pwz", "application/vnd.ms-powerpoint"),
    (".wasm", "application/wasm"),
    (".bcpio", "application/x-bcpio"),
    (".cpio", "application/x-cpio"),
    (".csh", "application/x-csh"),
    (".dvi", "application/x-dvi"),
    (".gtar", "application/x-gtar"),
    (".hdf", "application/x-hdf"),
    (".h5", "application/x-hdf5"),
    (".latex", "application/x-latex"),
    (".mif", "application/x-mif"),
    (".cdf", "application/x-netcdf"),
    (".nc", "application/x-netcdf"),
    (".p12", "application/x-pkcs12"),
    (".pfx", "application/x-pkcs12"),
    (".ram", "application/x-pn-realaudio"),
    (".pyc", "application/x-python-code"),
    (".pyo", "application/x-python-code"),
    (".sh", "application/x-sh"),
    (".shar", "application/x-shar"),
    (".swf", "application/x-shockwave-flash"),
    (".sv4cpio", "application/x-sv4cpio"),
    (".sv4crc", "application/x-sv4crc"),
    (".tar", "application/x-tar"),
    (".tcl", "application/x-tcl"),
    (".tex", "application/x-tex"),
    (".texi", "application/x-texinfo"),
    (".texinfo", "application/x-texinfo"),
    (".roff", "application/x-troff"),
    (".t", "application/x-troff"),
    (".tr", "application/x-troff"),
    (".man", "application/x-troff-man"),
    (".me", "application/x-troff-me"),
    (".ms", "application/x-troff-ms"),
    (".ustar", "application/x-ustar"),
    (".src", "application/x-wais-source"),
    (".xsl", "application/xml"),
    (".rdf", "application/xml"),
    (".wsdl", "application/xml"),
    (".xpdl", "application/xml"),
    (".zip", "application/zip"),
    (".3gp", "audio/3gpp"),
    (".3gpp", "audio/3gpp"),
    (".3g2", "audio/3gpp2"),
    (".3gpp2", "audio/3gpp2"),
    (".aac", "audio/aac"),
    (".adts", "audio/aac"),
    (".loas", "audio/aac"),
    (".ass", "audio/aac"),
    (".au", "audio/basic"),
    (".snd", "audio/basic"),
    (".mp3", "audio/mpeg"),
    (".mp2", "audio/mpeg"),
    (".opus", "audio/opus"),
    (".aif", "audio/x-aiff"),
    (".aifc", "audio/x-aiff"),
    (".aiff", "audio/x-aiff"),
    (".ra", "audio/x-pn-realaudio"),
    (".wav", "audio/x-wav"),
    (".avif", "image/avif"),
    (".bmp", "image/bmp"),
    (".gif", "image/gif"),
    (".ief", "image/ief"),
    (".jpg", "image/jpeg"),
    (".jpe", "image/jpeg"),
    (".jpeg", "image/jpeg"),
    (".heic", "image/heic"),
    (".heif", "image/heif"),
    (".png", "image/png"),
    (".svg", "image/svg+xml"),
    (".tiff", "image/tiff"),
    (".tif", "image/tiff"),
    (".ico", "image/vnd.microsoft.icon"),
    (".ras", "image/x-cmu-raster"),
    (".pnm", "image/x-portable-anymap"),
    (".pbm", "image/x-portable-bitmap"),
    (".pgm", "image/x-portable-graymap"),
    (".ppm", "image/x-portable-pixmap"),
    (".rgb", "image/x-rgb"),
    (".xbm", "image/x-xbitmap"),
    (".xpm", "image/x-xpixmap"),
    (".xwd", "image/x-xwindowdump"),
    (".eml", "message/rfc822"),
    (".mht", "message/rfc822"),
    (".mhtml", "message/rfc822"),
    (".nws", "message/rfc822"),
    (".css", "text/css"),
    (".csv", "text/csv"),
    (".html", "text/html"),
    (".htm", "text/html"),
    (".n3", "text/n3"),
    (".txt", "text/plain"),
    (".bat", "text/plain"),
    (".c", "text/plain"),
    (".h", "text/plain"),
    (".ksh", "text/plain"),
    (".pl", "text/plain"),
    (".srt", "text/plain"),
    (".rtx", "text/richtext"),
    (".tsv", "text/tab-separated-values"),
    (".vtt", "text/vtt"),
    (".py", "text/x-python"),
    (".etx", "text/x-setext"),
    (".sgm", "text/x-sgml"),
    (".sgml", "text/x-sgml"),
    (".vcf", "text/x-vcard"),
    (".xml", "text/xml"),
    (".mp4", "video/mp4"),
    (".mpeg", "video/mpeg"),
    (".m1v", "video/mpeg"),
    (".mpa", "video/mpeg"),
    (".mpe", "video/mpeg"),
    (".mpg", "video/mpeg"),
    (".mov", "video/quicktime"),
    (".qt", "video/quicktime"),
    (".webm", "video/webm"),
    (".avi", "video/x-msvideo"),
    (".movie", "video/x-sgi-movie")
  ]

/-- The `(value, phrase)` pairs of CPython 3.11's `http.HTTPStatus` enum.
`http.HTTPStatus(code)` returns the member with that value, or raises
`ValueError: <code> is not a valid HTTPStatus` when no member has it. -/
def httpStatusPhrases : List (Nat × String) := [
    (100, "Continue"),
    (101, "Switching Protocols"),
    (102, "Processing"),
    (103, "Early Hints"),
    (200, "OK"),
    (201, "Created"),
    (202, "Accepted"),
    (203, "Non-Authoritative Information"),
    (204, "No Content"),
    (205, "Reset Content"),
    (206, "Partial Content"),
    (207, "Multi-Status"),
    (208, "Already Reported"),
    (226, "IM Used"),
    (300, "Multiple Choices"),
    (301, "Moved Permanently"),
    (302, "Found"),
    (303, "See Other"),
    (304, "Not Modified"),
    (305, "Use Proxy"),
    (307, "Temporary Redirect"),
    (308, "Permanent Redirect"),
    (400, "Bad Request"),
    (401, "Unauthorized"),
    (402, "Payment Required"),
    (403, "Forbidden"),
    (404, "Not Found"),
    (405, "Method Not Allowed"),
    (406, "Not Acceptable"),
    (407, "Proxy Authentication Required"),
    (408, "Request Timeout"),
    (409, "Conflict"),
    (410, "Gone"),
    (411, "Length Required"),
    (412, "Precondition Failed"),
    (413, "Request Entity Too Large"),
    (414, "Request-URI Too Long"),
    (415, "Unsupported Media Type"),
    (416, "Requested Range Not Satisfiable"),
    (417, "Expectation Failed"),
    (418, "I\x27m a Teapot"),
    (421, "Misdirected Request"),
    (422, "Unprocessable Entity"),
    (423, "Locked"),
    (424, "Failed Dependency"),
    (425, "Too Early"),
    (426, "Upgrade Required"),
    (428, "Precondition Required"),
    (429, "Too Many Requests"),
    (431, "Request Header Fields Too Large"),
    (451, "Unavailable For Legal Reasons"),
    (500, "Internal Server Error"),
    (501, "Not Implemented"),
    (502, "Bad Gateway"),
    (503, "Service Unavailable"),
    (504, "Gateway Timeout"),
    (505, "HTTP Version Not Supported"),
    (506, "Variant Also Negotiates"),
    (507, "Insufficient Storage"),
    (508, "Loop Detected"),
    (510, "Not Extended"),
    (511, "Network Authentication Required")

  ]

/-- `http.HTTPStatus(code).phrase`: the phrase when `code` is a member,
otherwise the `ValueError` that the enum constructor raises. -/
def HTTPStatus_phrase (code : Nat) : Except String String :=
  match httpStatusPhrases.lookup code with
  | some p => .ok p
  | none => .error (toString code ++ " is not a valid HTTPStatus")

/-! ### Python string primitives

The handful of `str` operations the sources use, implemented over the
character list of the string so that every definition evaluates by kernel
reduction.  They match Python's semantics on the data that reaches them
(header names and MIME types are ASCII; `lower` is ASCII case-folding). -/

/-- Python `c in s` for a single-character needle. -/
def pyContains (s : String) (c : Char) : Bool :=
  s.data.contains c

/-- Python `s.lower()` (ASCII). -/
def pyLower (s : String) : String :=
  String.mk (s.data.map Char.toLower)

/-- Splitting of a character list at every occurrence of `sep`, keeping
empty pieces, as Python `str.split` with an explicit separator does. -/
def splitChars (sep : Char) : List Char → List (List Char)
  | [] => [[]]
  | x :: xs =>
    match splitChars sep xs with
    | [] => [[]]
    | y :: ys => if x = sep then [] :: y :: ys else (x :: y) :: ys

/-- Python `s.split(sep)` for a single-character separator:
`"".split(".") == [""]`, `"example.com".split(".") == ["example", "com"]`. -/
def pySplit (s : String) (sep : Char) : List String :=
  (splitChars sep s.data).map String.mk

/-- Python `s.split(sep, 1)` for a single-character separator contained in
`s`: the part before the first occurrence and everything after it.  (When
`sep` does not occur the second component is `""`; all uses below are guarded
on occurrence.) -/
def pySplitOnce (s : String) (sep : Char) : String × String :=
  let pre := s.data.takeWhile (fun a => a ≠ sep)
  (String.mk pre, String.mk (s.data.drop (pre.length + 1)))

/-- Python `s.endswith(t)`. -/
def pyEndsWith (s t : String) : Bool :=
  t.data.isSuffixOf s.data

/-- Python `s[:-n]` for `0 < n ≤ len(s)`: drop the last `n` characters. -/
def pyDropRight (s : String) (n : Nat) : String :=
  String.mk (s.data.take (s.data.length - n))

/-! ### The native response object

The facade stores a `flask.Response` in `flask_response` and touches only its
`status_code`, `headers` and `data` attributes, plus the `content_type`
property (whose setter writes the `Content-Type` header).  `FlaskResponse`
models exactly that surface: a status code, a werkzeug-style header mapping
with case-insensitive keys (`headers[k] = v` replaces every entry whose key
matches `k` case-insensitively, `headers.get(k)` matches case-insensitively),
and a text body.  The entry order that werkzeug preserves on overwrite is
abstracted (replaced keys are re-appended); no lookup is affected.
Construction is modelled per the dependency surface this layer consumes
(spec sections 3 and 6): status 200, no headers, empty body. -/

/-- Case-insensitive header assignment, as werkzeug `Headers.__setitem__`:
drop every entry whose key matches case-insensitively, add the new entry. -/
def headersSet (hs : List (String × String)) (k v : String) : List (String × String) :=
  hs.filter (fun kv => pyLower kv.1 ≠ pyLower k) ++ [(k, v)]

/-- Case-insensitive header lookup, as werkzeug `Headers.get(k, None)`. -/
def headersGet (hs : List (String × String)) (k : String) : Option String :=
  (hs.find? (fun kv => pyLower kv.1 = pyLower k)).map (·.2)

structure FlaskResponse where
  status_code : Nat
  headers : List (String × String)
  data : String
deriving Repr, DecidableEq

/-- `flask.Response()` as consumed by this layer: empty buffer, status 200. -/
def FlaskResponse.init : FlaskResponse := ⟨200, [], ""⟩

/-- The `flask_response.content_type = v` property setter: writes the
`Content-Type` header. -/
def FlaskResponse.setContentType (fr : FlaskResponse) (v : String) : FlaskResponse :=
  { fr with headers := headersSet fr.headers "Content-Type" v }

/-- The `flask_response.data = s` assignment: replaces the body. -/
def FlaskResponse.setData (fr : FlaskResponse) (s : String) : FlaskResponse :=
  { fr with data := s }

/-! ### `god_like/response.py`: the `Response` facade

Each Python method mutates `self` and returns `self`; here each is a function
from the facade state to the new facade state, so a Python call chain
`r.f().g()` is the composite `g (f r)`.  Methods that can raise
(`send_file`, `send_status`) return the state paired with the pending
exception (`none` = normal return); the state component is the object's
fields at the moment the method raised or returned, since a Python exception
does not undo assignments already executed. -/

structure Response where
  flask_response : FlaskResponse
deriving Repr, DecidableEq

/-- `Response()` — constructs a fresh `flask.Response`. -/
def Response.init : Response := ⟨FlaskResponse.init⟩

/-- `content_type`: if the value has no `/` it is treated as a file extension
and looked up in `mimetypes.types_map` under `"." ++ value` with default
`"text/html"`; the result is assigned to `flask_response.content_type`. -/
def Response.content_type (r : Response) (ct : String) : Response :=
  let ct := if ¬ pyContains ct '/' then
      (types_map.lookup ("." ++ ct)).getD "text/html"
    else ct
  ⟨r.flask_response.setContentType ct⟩

/-- `get`: `flask_response.headers.get(field, None)` (case-insensitive). -/
def Response.get (r : Response) (field : String) : Option String :=
  headersGet r.flask_response.headers field

/-- `json`: sets `content_type` to `application/json`, then sets `data` to
`json.dumps(obj)`. -/
def Response.json (r : Response) (obj : JValue) : Response :=
  let r : Response := ⟨r.flask_response.setContentType "application/json"⟩
  ⟨r.flask_response.setData (dumps obj)⟩

/-- The body `redirect(path)` installs: the f-string from the source with
`path` substituted verbatim at both interpolation points. -/
def redirectBody (path : String) : String :=
  "\n<!DOCTYPE HTML PUBLIC \"-//W3C//DTD HTML 3.2 Final//EN\">\n<title>Redirecting...</title>\n<h1>Redirecting...</h1>\n<p>You should be redirected automatically to target URL: <a href=\""
    ++ path ++ "\">" ++ path
    ++ "</a>.  If not click the link.\n"

/-- `redirect`: status 302, then the redirect-notice body, then
`content_type("text/html")`, then `headers["Location"] = path`. -/
def Response.redirect (r : Response) (path : String) : Response :=
  let r : Response := ⟨{ r.flask_response with status_code := 302 }⟩
  let r : Response := ⟨r.flask_response.setData (redirectBody path)⟩
  let r := r.content_type "text/html"
  ⟨{ r.flask_response with headers := headersSet r.flask_response.headers "Location" path }⟩

/-- `status`: sets `flask_response.status_code`. -/
def Response.status (r : Response) (code : Nat) : Response :=
  ⟨{ r.flask_response with status_code := code }⟩

/-- `set_header`: assigns each given entry into `flask_response.headers`.
The Python argument is a `dict`, whose iteration order is its (unique-keyed)
insertion order; a key-value list with distinct keys models it. -/
def Response.set_header (r : Response) (fields : List (String × String)) : Response :=
  ⟨{ r.flask_response with
      headers := fields.foldl (fun hs kv => headersSet hs kv.1 kv.2) r.flask_response.headers }⟩

/-- The argument of `send`: a Python `str`, or one of the non-string
JSON-serializable values from the annotation. -/
inductive PyBody where
  | str : String → PyBody
  | val : JValue → PyBody

/-- `send`: a non-string argument is delegated to `json`; a string becomes
the body (`flask_response.data`), and only when `get("Content-Type")` is
`None` afterwards is `content_type("text/html")` applied. -/
def Response.send (r : Response) (body : PyBody) : Response :=
  match body with
  | .val v => r.json v
  | .str s =>
    let r : Response := ⟨r.flask_response.setData s⟩
    if r.get "Content-Type" = none then r.content_type "text/html" else r

/-! ### `pathlib` name/suffix and the filesystem

`send_file` converts its argument to a `pathlib.Path` and uses `read_text()`
and `.suffix`; `download` uses `.name`.  POSIX paths are modelled (no drive
letters).  The filesystem is a partial map from path strings to file text;
`none` stands for any path whose `read_text()` raises (missing, unreadable). -/

/-- `pathlib.PurePath(p).name`: the final non-empty path component. -/
def pathName (p : String) : String :=
  (((pySplit p '/').filter (fun s => s ≠ "")).getLast?).getD ""

/-- `pathlib.PurePath(p).suffix`: `name[i:]` for `i` the index of the last
dot of the name, provided `0 < i < len(name) - 1`; otherwise `""`. -/
def pathSuffix (p : String) : String :=
  let name := pathName p
  match pySplit name '.' with
  | [] => ""
  | [_] => ""
  | parts =>
    let ext := (parts.getLast?).getD ""
    if ext = "" then ""
    else if name.data.length - ext.data.length - 1 = 0 then ""
    else "." ++ ext

/-- `send_file`: reads the file as text into `data`, then sets
`content_type` from `mimetypes.types_map` under the path's suffix with
default `"text/html"`.  The read is the first effect — it happens while
evaluating the right-hand side of the `data` assignment — so when it raises
(second component `some e`) the response still holds its original fields. -/
def Response.send_file (fs : String → Option String) (r : Response) (file_path : String) :
    Response × Option String :=
  match fs file_path with
  | none => (r, some ("FileNotFoundError: " ++ file_path))
  | some text =>
    let r : Response := ⟨r.flask_response.setData text⟩
    let r : Response :=
      ⟨r.flask_response.setContentType ((types_map.lookup (pathSuffix file_path)).getD "text/html")⟩
    (r, none)

/-- `download`: sets `Content-Disposition: attachment; filename=<filename or
the path's base name>` via `set_header`, then calls `send_file`. -/
def Response.download (fs : String → Option String) (r : Response) (path : String)
    (filename : Option String) : Response × Option String :=
  let r := r.set_header
    [("Content-Disposition", "attachment; filename=" ++ (filename.getD (pathName path)))]
  Response.send_file fs r path

/-- `send_status`: evaluates `self.status(code)` (the status assignment
happens first), then `http.HTTPStatus(code).phrase or str(code)` — which
raises for a code outside the enum — then `send`s the phrase. -/
def Response.send_status (r : Response) (code : Nat) : Response × Option String :=
  let r := r.status code
  match HTTPStatus_phrase code with
  | .error e => (r, some e)
  | .ok p => (r.send (.str (if p = "" then toString code else p)), none)

/-! ### The native request object

`god_like/request.py` reads `flask.Request` attributes.  The claims touch
`host` and `accept_mimetypes`, which flask inherits from werkzeug; both are
modelled from werkzeug's implementation (the underlying framework the source
delegates to), since it decides the claims.  `accept_mimetypes` is the parsed
`Accept` header: the list of its media-range strings, best first (the
qualities, irrelevant to membership, are dropped). -/

structure FlaskRequest where
  scheme : String
  hostHeader : Option String
  server : Option (String × Option Nat)
  acceptMimetypes : List String
deriving Repr

/-- werkzeug `sansio.utils.get_host` (without the trusted-hosts check, which
the facade never configures): the `Host` header if sent, else the bound
server name and port; a trailing `:80` is stripped for `http`/`ws` and a
trailing `:443` for `https`/`wss` — any other port is kept. -/
def get_host (scheme : String) (host_header : Option String)
    (server : Option (String × Option Nat)) : String :=
  let host :=
    match host_header with
    | some h => h
    | none =>
      match server with
      | some (name, some port) => name ++ ":" ++ toString port
      | some (name, none) => name
      | none => ""
  if (scheme = "http" ∨ scheme = "ws") ∧ pyEndsWith host ":80" then
    pyDropRight host 3
  else if (scheme = "https" ∨ scheme = "wss") ∧ pyEndsWith host ":443" then
    pyDropRight host 4
  else host

/-- werkzeug `MIMEAccept._value_matches`'s `_normalize`: lower-case, and a
bare `*` becomes the full wildcard, otherwise split at the first `/`. -/
def normalizeMime (x : String) : String × String :=
  let x := pyLower x
  if x = "*" then ("*", "*") else pySplitOnce x '/'

/-- werkzeug `MIMEAccept._value_matches value item`: `value` is the mimetype
the application asks about, `item` one media range of the `Accept` header.
A `value` that is not of the form `type/subtype` (or that is `*/sub`) raises
`ValueError: invalid mimetype <value>`; a malformed `item` merely fails to
match.  Otherwise the usual wildcard-aware comparison. -/
def mimeValueMatches (value item : String) : Except String Bool :=
  if ¬ pyContains value '/' then
    .error ("invalid mimetype \x27" ++ value ++ "\x27")
  else
    let vp := normalizeMime value
    if vp.1 = "*" ∧ vp.2 ≠ "*" then
      .error ("invalid mimetype \x27" ++ value ++ "\x27")
    else if ¬ pyContains item '/' then .ok false
    else
      let ip := normalizeMime item
      if ip.1 = "*" ∧ ip.2 ≠ "*" then .ok false
      else
        .ok ((ip.1 = "*" ∧ ip.2 = "*") ∨ (vp.1 = "*" ∧ vp.2 = "*") ∨
          (ip.1 = vp.1 ∧ (ip.2 = "*" ∨ vp.2 = "*" ∨ ip.2 = vp.2)))

/-- werkzeug `Accept.__contains__` on a `MIMEAccept`: scan the header's media
ranges in order; the first match answers `True`, exhaustion answers `False`,
and the `ValueError` from a malformed query propagates out of the scan. -/
def mimeAcceptContains (value : String) : List String → Except String Bool
  | [] => .ok false
  | item :: rest => do
    let b ← mimeValueMatches value item
    if b then .ok true else mimeAcceptContains value rest

/-! ### `god_like/request.py`: the `Request` facade -/

structure Request where
  flask_request : FlaskRequest
deriving Repr

/-- `host`: returns `_flask_request.host`, i.e. werkzeug's `get_host` of the
scheme, `Host` header and bound server. -/
def Request.host (rq : Request) : String :=
  get_host rq.flask_request.scheme rq.flask_request.hostHeader rq.flask_request.server

/-- `hostname`: alias returning `self.host`. -/
def Request.hostname (rq : Request) : String :=
  rq.host

/-- `subdomains`: `list(reversed(self.hostname.split(".")))[2:]`. -/
def Request.subdomains (rq : Request) : List String :=
  ((pySplit rq.hostname '.').reverse).drop 2

/-- `accepts`: a `media_type` without `/` is first looked up in
`mimetypes.types_map` — under the key `media_type` itself, with the leading
dot of the table's keys NOT prepended (contrast `Response.content_type`) and
with the unresolved string as the default — then tested for membership in
`_flask_request.accept_mimetypes`. -/
def Request.accepts (rq : Request) (media_type : String) : Except String Bool :=
  let media_type := if ¬ pyContains media_type '/' then
      (types_map.lookup media_type).getD media_type
    else media_type
  mimeAcceptContains media_type rq.flask_request.acceptMimetypes

/-! ### `god_like/godlike.py`: `GodLike.listen` and the process streams

`listen` optionally rebinds the process-wide `sys.stdout`/`sys.stderr`, then
calls the blocking `run_simple`, then optionally restores them.  The state a
handler's `print` (or werkzeug's per-request logging) observes is modelled
explicitly: which stream object each of `sys.stdout`/`sys.stderr` currently
is, and which file handles are open.  Handle `0` stands for the single
`open(os.devnull, "w")` file. -/

inductive StreamTarget where
  | realStdout : StreamTarget
  | realStderr : StreamTarget
  | handle : Nat → StreamTarget
deriving Repr, DecidableEq

structure ProcState where
  sysStdout : StreamTarget
  sysStderr : StreamTarget
  openHandles : List Nat
deriving Repr, DecidableEq

/-- Process state at interpreter start: the real streams, no open files. -/
def ProcState.start : ProcState := ⟨.realStdout, .realStderr, []⟩

/-- A write to a stream target: the real streams accept it (`listen`
suppression would have to route it elsewhere); a write to a file handle
raises `ValueError: I/O operation on closed file` once the handle is closed. -/
def writeTo (s : ProcState) (t : StreamTarget) : Except String Unit :=
  match t with
  | .handle h =>
    if h ∈ s.openHandles then .ok ()
    else .error "ValueError: I/O operation on closed file"
  | _ => .ok ()

/-- A write to whatever `sys.stdout` currently is, e.g. a `print` during
request handling. -/
def writeStdout (s : ProcState) : Except String Unit :=
  writeTo s s.sysStdout

/-- The effects `listen` performs before `run_simple` starts serving: when
`verbose` is false, `open(os.devnull, "w")` (handle 0), assign it to
`sys.stdout` and `sys.stderr` inside the `with` block — whose exit closes
the file again before `run_simple` is reached.  When `verbose` is true,
nothing. -/
def listenPreServe (verbose : Bool) (s : ProcState) : ProcState :=
  if verbose then s
  else
    let s := { s with openHandles := 0 :: s.openHandles }
    let s := { s with sysStdout := .handle 0 }
    let s := { s with sysStderr := .handle 0 }
    { s with openHandles := s.openHandles.erase 0 }

/-- The effects after `run_simple` returns: when `verbose` is false, the
saved stream objects are assigned back. -/
def listenPostServe (verbose : Bool) (savedOut savedErr : StreamTarget)
    (s : ProcState) : ProcState :=
  if verbose then s
  else { s with sysStdout := savedOut, sysStderr := savedErr }

/-- The whole of `listen` as a state transformation (serving itself adds no
stream effects of its own): pre-serve effects, then restoration using the
streams saved on entry. -/
def listenRun (verbose : Bool) (s : ProcState) : ProcState :=
  listenPostServe verbose s.sysStdout s.sysStderr (listenPreServe verbose s)

/-! ### Concrete instances used by the theorems below -/

/-- A request with `Accept: application/json` (and any host). -/
def rqJson : Request := ⟨⟨"http", some "h", none, ["application/json"]⟩⟩

/-- A plain-http request whose `Host` header carries the non-default
port 3000. -/
def rq3000 : Request := ⟨⟨"http", some "example.com:3000", none, []⟩⟩

/-- A request whose hostname is `tobi.ferrets.example.com`. -/
def rqTobi : Request := ⟨⟨"http", some "tobi.ferrets.example.com", none, []⟩⟩

/-- A request whose hostname is `example.com`. -/
def rqTwoLabels : Request := ⟨⟨"http", some "example.com", none, []⟩⟩

/-- A response on which a `Content-Type` has already been set. -/
def rXml : Response := Response.init.content_type "application/xml"

/-- A filesystem on which every read raises. -/
def emptyFS : String → Option String := fun _ => none

/-! ### Header-mapping lemmas -/

/-- `find?` misses a list filtered by a predicate that excludes every hit. -/
theorem find?_filter_excl {α : Type} (p q : α → Bool) :
    ∀ l : List α, (∀ x, p x = true → q x = false) → (l.filter q).find? p = none := by
  intro l h
  induction l with
  | nil => rfl
  | cons x l ih =>
    by_cases hq : q x = true
    · have hp : p x = false := by
        cases hpx : p x with
        | false => rfl
        | true => rw [h x hpx] at hq; exact absurd hq (by simp)
      simp [List.filter_cons, hq, List.find?, hp, ih]
    · simp only [Bool.not_eq_true] at hq
      simp [List.filter_cons, hq, ih]

/-- `find?` is unchanged by filtering with a predicate every hit satisfies. -/
theorem find?_filter_imp {α : Type} (p q : α → Bool) :
    ∀ l : List α, (∀ x, p x = true → q x = true) → (l.filter q).find? p = l.find? p := by
  intro l h
  induction l with
  | nil => rfl
  | cons x l ih =>
    by_cases hq : q x = true
    · cases hpx : p x with
      | true => simp [List.filter_cons, hq, List.find?, hpx]
      | false => simp [List.filter_cons, hq, List.find?, hpx, ih]
    · have hp : p x = false := by
        cases hpx : p x with
        | false => rfl
        | true => exact absurd (h x hpx) hq
      simp only [Bool.not_eq_true] at hq
      simp [List.filter_cons, hq, List.find?, hp, ih]

/-- Looking up a header right after assigning a case-insensitive match of it
yields the assigned value. -/
theorem headersGet_set_match (hs : List (String × String)) (k v f : String)
    (h : pyLower f = pyLower k) : headersGet (headersSet hs k v) f = some v := by
  unfold headersGet headersSet
  rw [List.find?_append]
  rw [find?_filter_excl _ _ hs (by intro x hx; simp at hx ⊢; rw [hx, h])]
  simp [List.find?, h]

/-- Assigning one header leaves lookups of case-insensitively different
headers unchanged. -/
theorem headersGet_set_skip (hs : List (String × String)) (k v f : String)
    (h : pyLower f ≠ pyLower k) : headersGet (headersSet hs k v) f = headersGet hs f := by
  unfold headersGet headersSet
  rw [List.find?_append]
  rw [find?_filter_imp _ _ hs (by intro x hx; simp at hx ⊢; rw [hx]; exact h)]
  cases hf : List.find? (fun kv => pyLower kv.1 = pyLower f) hs with
  | some x => simp
  | none => simp [List.find?, Ne.symm h]

/-! ### The claims -/

/-- C1: contrary to the claim, `Request.accepts` never resolves a bare
extension: it looks `media_type` up in `mimetypes.types_map` under the
undotted key, but every key of that table starts with a dot, so the lookup of
`"json"` misses (while `".json"` is present and maps to `application/json`)
and `accepts("json")` hands the literal string `"json"` to werkzeug, whose
`MIMEAccept` membership raises `ValueError: invalid mimetype 'json'` — it
does not return `True` for an Accept set containing `application/json`
(which the same request's `accepts("application/json")` does). -/
theorem C1_accepts_extension_unresolved :
    types_map.all (fun kv => kv.1.data.take 1 = ['.']) = true ∧
    types_map.lookup ".json" = some "application/json" ∧
    types_map.lookup "json" = none ∧
    Request.accepts rqJson "json" = .error "invalid mimetype \x27json\x27" ∧
    Request.accepts rqJson "application/json" = .ok true :=
  ⟨by decide, by decide, by decide, rfl, rfl⟩

/-- C2: `send_status(404)` does set status 404 and body `"Not Found"`, but
the claimed fallback for unknown codes is dead: `http.HTTPStatus(599)` raises
`ValueError` (599 is not an enum member) before the `or str(code)` branch can
run, with the status already mutated to 599 — the body never becomes
`"599"`. -/
theorem C2_send_status_unknown_raises :
    Response.send_status Response.init 404 =
      (⟨⟨404, [("Content-Type", "text/html")], "Not Found"⟩⟩, none) ∧
    httpStatusPhrases.lookup 599 = none ∧
    Response.send_status Response.init 599 =
      (⟨⟨599, [], ""⟩⟩, some "599 is not a valid HTTPStatus") :=
  ⟨by decide, by decide, by decide⟩

/-- C3: contrary to the claim, `Request.host` (and its alias `hostname`)
returns werkzeug's host, which keeps a non-default port: for
`Host: example.com:3000` over http it returns `"example.com:3000"`, not
`"example.com"` (only the scheme's default port, e.g. `:80`, is stripped). -/
theorem C3_host_keeps_nondefault_port :
    Request.host rq3000 = "example.com:3000" ∧
    Request.hostname rq3000 = "example.com:3000" ∧
    Request.host rq3000 ≠ "example.com" ∧
    Request.host ⟨⟨"http", some "example.com:80", none, []⟩⟩ = "example.com" ∧
    (∀ rq : Request, rq.hostname = rq.host) :=
  ⟨by decide, by decide, by decide, by decide, fun _ => rfl⟩

/-- C4: `subdomains` is the hostname split on `.`, reversed, with the first
two elements of the reversed sequence dropped; `"tobi.ferrets.example.com"`
gives `["ferrets", "tobi"]` and `"example.com"` gives `[]` without error. -/
theorem C4_subdomains :
    (∀ rq : Request, rq.subdomains = ((pySplit rq.hostname '.').reverse).drop 2) ∧
    (∀ rq : Request, rq.hostname = "tobi.ferrets.example.com" →
      rq.subdomains = ["ferrets", "tobi"]) ∧
    (∀ rq : Request, rq.hostname = "example.com" → rq.subdomains = []) := by
  refine ⟨fun _ => rfl, fun rq h => ?_, fun rq h => ?_⟩ <;>
    · show ((pySplit rq.hostname '.').reverse).drop 2 = _
      rw [h]
      decide

/-- Witness for C4 at concrete hostnames. -/
theorem C4_subdomains_witness :
    rqTobi.hostname = "tobi.ferrets.example.com" ∧
      rqTobi.subdomains = ["ferrets", "tobi"] ∧
      rqTwoLabels.hostname = "example.com" ∧ rqTwoLabels.subdomains = [] :=
  ⟨by decide, C4_subdomains.2.1 rqTobi (by decide), by decide,
    C4_subdomains.2.2 rqTwoLabels (by decide)⟩

/-- C5: a non-string argument of `send` is delegated to `json`; a string
argument becomes the body, with `Content-Type` defaulted to `text/html`
exactly when none is set yet (a previously set `Content-Type` is kept), and
`send` of a one-entry dict produces Content-Type `application/json` and the
dict's JSON text. -/
theorem C5_send :
    (∀ (r : Response) (v : JValue), r.send (.val v) = r.json v) ∧
    (Response.init.send (.str "hello")).flask_response.data = "hello" ∧
    (Response.init.send (.str "hello")).get "Content-Type" = some "text/html" ∧
    (∀ (r : Response) (s ct : String), r.get "Content-Type" = some ct →
      (r.send (.str s)).get "Content-Type" = some ct) ∧
    (Response.init.send (.val (.obj [("a", .int 1)]))).get "Content-Type" =
      some "application/json" ∧
    (Response.init.send (.val (.obj [("a", .int 1)]))).flask_response.data =
      "\x7b\"a\": 1\x7d" := by
  refine ⟨fun _ _ => rfl, by decide, by decide, fun r s ct h => ?_, by decide, by decide⟩
  have hsame : Response.get ⟨r.flask_response.setData s⟩ "Content-Type" =
      r.get "Content-Type" := rfl
  have e : r.send (.str s) =
      (if Response.get ⟨r.flask_response.setData s⟩ "Content-Type" = none
       then Response.content_type ⟨r.flask_response.setData s⟩ "text/html"
       else ⟨r.flask_response.setData s⟩) := rfl
  rw [e, hsame, h, if_neg (by simp)]
  exact hsame.trans h

/-- Witness for C5 on a response whose `Content-Type` was set beforehand. -/
theorem C5_send_witness :
    rXml.get "Content-Type" = some "application/xml" ∧
      (rXml.send (.str "hi")).get "Content-Type" = some "application/xml" :=
  ⟨by decide, C5_send.2.2.2.1 rXml "hi" "application/xml" (by decide)⟩

/-- C6: `content_type` of a value containing `/` is verbatim; otherwise the
value is treated as an extension and resolved through `mimetypes.types_map`
under `"." ++ value` with default `text/html`; `"json"` resolves to
`application/json` and `"application/xml"` is set verbatim. -/
theorem C6_content_type :
    (∀ (r : Response) (v : String), pyContains v '/' = true →
      (r.content_type v).get "Content-Type" = some v) ∧
    (∀ (r : Response) (v : String), pyContains v '/' = false →
      (r.content_type v).get "Content-Type" =
        some ((types_map.lookup ("." ++ v)).getD "text/html")) ∧
    (Response.init.content_type "json").get "Content-Type" = some "application/json" ∧
    (Response.init.content_type "application/xml").get "Content-Type" =
      some "application/xml" := by
  refine ⟨fun r v h => ?_, fun r v h => ?_, by decide, by decide⟩ <;>
    · show Response.get ⟨r.flask_response.setContentType _⟩ "Content-Type" = _
      simp only [h, Bool.not_true, Bool.not_false, if_true, if_false,
        Bool.false_eq_true, if_neg, ite_false, ite_true]
      exact headersGet_set_match _ _ _ _ rfl

/-- Witness for C6 on both branches of the slash test. -/
theorem C6_content_type_witness :
    pyContains "text/csv" '/' = true ∧
      (Response.init.content_type "text/csv").get "Content-Type" = some "text/csv" ∧
      pyContains "csv" '/' = false ∧
      (Response.init.content_type "csv").get "Content-Type" =
        some ((types_map.lookup ("." ++ "csv")).getD "text/html") :=
  ⟨by decide, C6_content_type.1 Response.init "text/csv" (by decide), by decide,
    C6_content_type.2.1 Response.init "csv" (by decide)⟩

/-- C7: from any starting state, the chain
`status(201).set_header(X-Foo: 1).json(ok: true)` leaves status 201, header
`X-Foo: 1`, Content-Type `application/json` and the JSON body — the
operations compose as sequential state updates on the one facade. -/
theorem C7_chain (r : Response) :
    (((r.status 201).set_header [("X-Foo", "1")]).json
        (.obj [("ok", .bool true)])).flask_response.status_code = 201 ∧
    (((r.status 201).set_header [("X-Foo", "1")]).json
        (.obj [("ok", .bool true)])).get "X-Foo" = some "1" ∧
    (((r.status 201).set_header [("X-Foo", "1")]).json
        (.obj [("ok", .bool true)])).get "Content-Type" = some "application/json" ∧
    (((r.status 201).set_header [("X-Foo", "1")]).json
        (.obj [("ok", .bool true)])).flask_response.data = "\x7b\"ok\": true\x7d" := by
  have hdata : (((r.status 201).set_header [("X-Foo", "1")]).json
      (.obj [("ok", .bool true)])).flask_response.data =
      dumps (.obj [("ok", .bool true)]) := rfl
  refine ⟨rfl, ?_, ?_, by rw [hdata]; decide⟩
  · show headersGet (headersSet (headersSet _ "X-Foo" "1") "Content-Type" "application/json")
      "X-Foo" = some "1"
    rw [headersGet_set_skip _ _ _ _ (by decide), headersGet_set_match _ _ _ _ rfl]
  · exact headersGet_set_match _ _ _ _ rfl

set_option maxRecDepth 8192 in
/-- C8: `redirect(path)` sets status 302, body the fixed redirect-notice
document with `path` embedded verbatim (unescaped) at the link target,
Content-Type `text/html` and header `Location: path`; for `"/x"` the body
contains the literal `/x`. -/
theorem C8_redirect :
    (∀ (r : Response) (path : String),
      (r.redirect path).flask_response.status_code = 302 ∧
      (r.redirect path).flask_response.data = redirectBody path ∧
      (r.redirect path).get "Content-Type" = some "text/html" ∧
      (r.redirect path).get "Location" = some path) ∧
    (∃ a b : String, redirectBody "/x" = a ++ "/x" ++ b) := by
  constructor
  · intro r path
    refine ⟨rfl, rfl, ?_, headersGet_set_match _ _ _ _ rfl⟩
    show headersGet (headersSet (headersSet _ "Content-Type" _) "Location" path)
      "Content-Type" = _
    rw [headersGet_set_skip _ _ _ _ (by decide)]
    show headersGet (headersSet _ "Content-Type"
      (if ¬ pyContains "text/html" '/' then _ else "text/html")) _ = _
    rw [if_neg (by decide)]
    exact headersGet_set_match _ _ _ _ rfl
  · exact ⟨"\n<!DOCTYPE HTML PUBLIC \"-//W3C//DTD HTML 3.2 Final//EN\">\n<title>Redirecting...</title>\n<h1>Redirecting...</h1>\n<p>You should be redirected automatically to target URL: <a href=\"",
      "\">/x</a>.  If not click the link.\n", by decide⟩

/-- C9: contrary to the claim, with `verbose=False` the streams are not
redirected to a writable sink for the duration of serving: the `with` block
closes the devnull file again before `run_simple` starts, so during serving
`sys.stdout`/`sys.stderr` are a closed file and a write raises `ValueError`
instead of being suppressed.  The restoration after serving and the
untouched-when-verbose part do hold. -/
theorem C9_listen_null_sink_closed :
    (listenPreServe false ProcState.start).sysStdout = .handle 0 ∧
    (listenPreServe false ProcState.start).sysStderr = .handle 0 ∧
    (listenPreServe false ProcState.start).openHandles = [] ∧
    writeStdout (listenPreServe false ProcState.start) =
      .error "ValueError: I/O operation on closed file" ∧
    (listenRun false ProcState.start).sysStdout = .realStdout ∧
    (listenRun false ProcState.start).sysStderr = .realStderr ∧
    listenPreServe true ProcState.start = ProcState.start ∧
    listenRun true ProcState.start = ProcState.start :=
  ⟨by decide, by decide, by decide, rfl, by decide, by decide, by decide, by decide⟩

/-- C10: a failing read in `send_file` propagates and the response keeps all
its fields: the read happens before either assignment, so on error the
returned state is the entry state itself. -/
theorem C10_send_file_error (fs : String → Option String) (r : Response) (p : String)
    (h : fs p = none) :
    Response.send_file fs r p = (r, some ("FileNotFoundError: " ++ p)) := by
  unfold Response.send_file
  rw [h]

/-- Witness for C10 on the everywhere-failing filesystem. -/
theorem C10_send_file_error_witness :
    emptyFS "missing.txt" = none ∧
      Response.send_file emptyFS Response.init "missing.txt" =
        (Response.init, some "FileNotFoundError: missing.txt") :=
  ⟨rfl, C10_send_file_error emptyFS Response.init "missing.txt" rfl⟩

end GodLike
